import Mathlib

/-!
Verification development for the Lightspeed sales-report pipeline
(`src/apps/lightspeed/api.py`).

The pipeline is embedded shallowly:

* Python floats used for money are modelled as `ℚ` (exact arithmetic), with
  Python's `round(x, 2)` modelled as round-half-to-even at two decimals.
* JSON field values are modelled by `JVal` (null / number / string / bool);
  a missing dictionary key (`dict.get`) is `JVal.null` or `Option.none`.
* Timezones are modelled as fixed UTC offsets in minutes (the reporting
  zone `America/New_York` is an IANA zone in the source; the claims under
  study do not depend on DST transitions).
* Calendar arithmetic (Python's `datetime`) is modelled with day numbers
  since 1970-01-01 and the standard civil-from-days / days-from-civil
  conversions for the proleptic Gregorian calendar.
* The paginated HTTP fetch is modelled as a pure function of a response
  script `Nat → PageResp` giving the response to the n-th request issued;
  `time.sleep` and the request itself are recorded as trace events.
* Python exceptions are modelled with `Except PyErr`.
-/

/-- A JSON scalar value as it arrives from the upstream API.  Lists/objects
never occur in the amount fields the pipeline reads, so they are omitted. -/
inductive JVal where
  | null
  | num (q : ℚ)
  | str (s : String)
  | bool (b : Bool)
deriving DecidableEq, Repr

/-- Model of Python `float(s)` on strings, restricted to plain decimal
literals (optional sign, digits, optional fractional part).  Anything else
is a parse failure (Python raises `ValueError`, which `_money` swallows). -/
def digitVal (c : Char) : Option ℚ :=
  if '0' ≤ c ∧ c ≤ '9' then some ((c.toNat : ℚ) - 48) else none

def parseDigitsAcc : List Char → ℚ → Bool → Option (ℚ × List Char)
  | [], acc, seen => if seen then some (acc, []) else none
  | c :: cs, acc, seen =>
    match digitVal c with
    | some d => parseDigitsAcc cs (acc * 10 + d) true
    | none => if seen then some (acc, c :: cs) else none

def parseFrac : List Char → ℚ → ℚ → Option ℚ
  | [], acc, _ => some acc
  | c :: cs, acc, scale =>
    match digitVal c with
    | some d => parseFrac cs (acc + d * scale / 10) (scale / 10)
    | none => none

def parseFloatCore (cs : List Char) : Option ℚ :=
  match parseDigitsAcc cs 0 false with
  | none => none
  | some (ip, rest) =>
    match rest with
    | [] => some ip
    | '.' :: fs => (parseFrac fs 0 1).map (fun fp => ip + fp)
    | _ => none

def parseFloat (s : String) : Option ℚ :=
  match s.data with
  | '-' :: cs => (parseFloatCore cs).map (fun q => -q)
  | '+' :: cs => parseFloatCore cs
  | cs => parseFloatCore cs

/-- Model of the source's `_money`: `float(x or 0)` under `try/except`,
returning `0.0` on any failure.  Falsy values (`None`, `0`, `""`, `False`)
become `0`; `float(True) = 1`; non-numeric strings raise inside the `try`
and default to `0`.  Total by construction: it can never raise. -/
def _money (v : JVal) : ℚ :=
  match v with
  | JVal.null => 0
  | JVal.num q => q
  | JVal.bool b => if b then 1 else 0
  | JVal.str s =>
    match parseFloat s with
    | some q => q
    | none => 0

/-- Model of the source's `_is_true`:
`(v is True) or (isinstance(v, str) and v.lower() == "true") or (v == 1)`. -/
def asciiLower (c : Char) : Char :=
  if 'A' ≤ c ∧ c ≤ 'Z' then Char.ofNat (c.toNat + 32) else c

def _is_true (v : JVal) : Bool :=
  match v with
  | JVal.bool b => b
  | JVal.str s => decide (s.data.map asciiLower = [ 't', 'r', 'u', 'e' ])
  | JVal.num q => decide (q = 1)
  | JVal.null => false

/-! ## Calendar arithmetic (model of Python `datetime` dates)

Day numbers count days since 1970-01-01 in the proleptic Gregorian
calendar; the conversions are the standard civil-calendar algorithms.
`Int.fdiv`/`Int.emod` (floor conventions) match Python's `//` and `%`. -/

def daysFromCivil (y m d : Int) : Int :=
  let yy := if m ≤ 2 then y - 1 else y
  let era := yy.fdiv 400
  let yoe := yy - era * 400
  let mp := (m + 9).emod 12
  let doy := (153 * mp + 2).fdiv 5 + d - 1
  let doe := yoe * 365 + yoe.fdiv 4 - yoe.fdiv 100 + doy
  era * 146097 + doe - 719468

def civilFromDays (z0 : Int) : Int × Int × Int :=
  let z := z0 + 719468
  let era := z.fdiv 146097
  let doe := z - era * 146097
  let yoe := (doe - doe.fdiv 1460 + doe.fdiv 36524 - doe.fdiv 146096).fdiv 365
  let y := yoe + era * 400
  let doy := doe - (365 * yoe + yoe.fdiv 4 - yoe.fdiv 100)
  let mp := (5 * doy + 2).fdiv 153
  let d := doy - (153 * mp + 2).fdiv 5 + 1
  let m := mp + (if mp < 10 then 3 else -9)
  ((if m ≤ 2 then y + 1 else y), m, d)

/-- Python's `date.weekday()`: Monday = 0 … Sunday = 6.
1970-01-01 (day number 0) was a Thursday (= 3). -/
def pyWeekday (days : Int) : Int :=
  (days + 3) % 7

def isLeap (y : Int) : Bool :=
  (y.emod 4 = 0 ∧ y.emod 100 ≠ 0) ∨ y.emod 400 = 0

def daysInMonth (y m : Int) : Int :=
  if m = 2 then (if isLeap y then 29 else 28)
  else if m = 4 ∨ m = 6 ∨ m = 9 ∨ m = 11 then 30
  else 31

def pad2 (n : Int) : String :=
  (if n < 10 then "0" else "") ++ toString n

def pad4 (n : Int) : String :=
  (if n < 10 then "000" else if n < 100 then "00" else if n < 1000 then "0" else "") ++ toString n

/-- `strftime("%Y-%m-%d")` on a civil date. -/
def renderDate (ymd : Int × Int × Int) : String :=
  pad4 ymd.1 ++ "-" ++ pad2 ymd.2.1 ++ "-" ++ pad2 ymd.2.2

/-- `datetime.astimezone(utc).isoformat().replace("+00:00", "Z")` for an
instant given in minutes since the epoch (UTC): a UTC ISO-8601 string. -/
def isoZofUtcMin (u : Int) : String :=
  let day := u.fdiv 1440
  let rem := u.emod 1440
  renderDate (civilFromDays day) ++ "T" ++ pad2 (rem.fdiv 60) ++ ":" ++ pad2 (rem.emod 60) ++ ":00Z"

/-! ## ISO-8601 timestamp parsing (model of `datetime.fromisoformat`) -/

/-- A parsed datetime: civil date, time of day, optional UTC offset in
minutes (`none` = naive datetime). -/
structure IsoDt where
  y : Int
  m : Int
  d : Int
  hh : Int
  mi : Int
  ss : Int
  off : Option Int
deriving DecidableEq, Repr

def readDigitsAux : Nat → Int → List Char → Option (Int × List Char)
  | 0, acc, cs => some (acc, cs)
  | n + 1, acc, c :: cs =>
    if '0' ≤ c ∧ c ≤ '9' then readDigitsAux n (acc * 10 + ((c.toNat : Int) - 48)) cs
    else none
  | _ + 1, _, [] => none

def parseOffPart (cs : List Char) : Option Int :=
  match readDigitsAux 2 0 cs with
  | some (oh, ':' :: cs1) =>
    match readDigitsAux 2 0 cs1 with
    | some (om, []) => if 0 ≤ oh ∧ oh < 24 ∧ 0 ≤ om ∧ om < 60 then some (oh * 60 + om) else none
    | _ => none
  | _ => none

def parseTimePart (y m d : Int) (cs : List Char) : Option IsoDt :=
  match readDigitsAux 2 0 cs with
  | some (hh, ':' :: cs1) =>
    match readDigitsAux 2 0 cs1 with
    | some (mi, ':' :: cs2) =>
      match readDigitsAux 2 0 cs2 with
      | some (ss, rest) =>
        if hh < 24 ∧ mi < 60 ∧ ss < 60 then
          match rest with
          | [] => some ⟨y, m, d, hh, mi, ss, none⟩
          | '+' :: os => (parseOffPart os).map (fun o => ⟨y, m, d, hh, mi, ss, some o⟩)
          | '-' :: os => (parseOffPart os).map (fun o => ⟨y, m, d, hh, mi, ss, some (-o)⟩)
          | _ => none
        else none
      | _ => none
    | _ => none
  | _ => none

def parseIsoDt (s : String) : Option IsoDt :=
  match readDigitsAux 4 0 s.data with
  | some (y, '-' :: cs1) =>
    match readDigitsAux 2 0 cs1 with
    | some (m, '-' :: cs2) =>
      match readDigitsAux 2 0 cs2 with
      | some (d, rest) =>
        if 1 ≤ m ∧ m ≤ 12 ∧ 1 ≤ d ∧ d ≤ daysInMonth y m then
          match rest with
          | [] => some ⟨y, m, d, 0, 0, 0, none⟩
          | 'T' :: ts => parseTimePart y m d ts
          | ' ' :: ts => parseTimePart y m d ts
          | _ => none
        else none
      | _ => none
    | _ => none
  | _ => none

/-- `iso_str.replace("Z", "+00:00")` (the source applies it before parsing). -/
def replaceZchars : List Char → List Char
  | [] => []
  | 'Z' :: cs => '+' :: '0' :: '0' :: ':' :: '0' :: '0' :: replaceZchars cs
  | c :: cs => c :: replaceZchars cs

/-- Model of `_to_local_dt`, reduced to the local calendar day it yields
(the only thing the aggregation reads from it, via `strftime("%Y-%m-%d")`;
the hourly breakdown is commented out in the source).  Returns `none` for
an empty or unparsable timestamp.  A naive timestamp is assumed UTC.
`tzOff` is the reporting zone's UTC offset in minutes.  Seconds cannot move
the day boundary here, so the day is derived from whole minutes. -/
def _to_local_day (isoStr : String) (tzOff : Int) : Option Int :=
  if isoStr = "" then none
  else
    match parseIsoDt (String.mk (replaceZchars isoStr.data)) with
    | none => none
    | some dt =>
      let off := dt.off.getD 0
      let utcMin := daysFromCivil dt.y dt.m dt.d * 1440 + dt.hh * 60 + dt.mi - off
      let localMin := utcMin + tzOff
      some (localMin.fdiv 1440)

/-! ## Sale records and the sale filter -/

/-- A sale record as consumed from the upstream search response.  Fields
read with `dict.get` are `Option`s / `JVal`s; `line_items` defaults to `[]`
when absent (`s.get("line_items") or []`). -/
structure LineItem where
  quantity : JVal
  total_price : JVal
  total_tax : JVal
  total_cost : JVal
  total_discount : JVal
  is_return : JVal
deriving DecidableEq, Repr

structure Sale where
  id : Option String
  status : Option String
  state : Option String
  sale_date : Option String
  total_price : JVal
  total_tax : JVal
  line_items : List LineItem
deriving DecidableEq, Repr

/-- The per-sale keep/drop decision of `SalesReportProcessor._filter_sales`,
with the source's exclusion rules in their original order (each `continue`
short-circuits the later rules). -/
def saleKeep (s : Sale) : Bool :=
  if s.status = some "SAVED" ∨ s.status = some "VOIDED" then false
  else if s.status = some "ONACCOUNT_CLOSED" ∧ s.state ≠ some "closed" then false
  else if s.state = some "voided" then false
  else true

def _filter_sales (sales : List Sale) : List Sale :=
  sales.filter saleKeep

/-- Deduplication by sale id in `_process_sales_data`:
`{s.get("id"): s for s in sales if s.get("id")}` — keys in first-occurrence
order, last-seen value wins, id-less sales dropped. -/
def dedupById (sales : List Sale) : List Sale :=
  let ids := (sales.filterMap (fun s => s.id)).eraseDups
  ids.filterMap (fun i => (sales.filter (fun s => s.id = some i)).getLast?)

/-! ## Aggregation engine (`SalesReportProcessor._calculate_metrics`) -/

/-- The global accumulator dictionary `totals` of `_calculate_metrics`. -/
structure Totals where
  gross_sales : ℚ
  returns_sales : ℚ
  gross_tax : ℚ
  returns_tax : ℚ
  gross_cost : ℚ
  returns_cost : ℚ
  gross_profit : ℚ
  returns_profit : ℚ
  total_discount : ℚ
  return_lines_seen : Nat
  negative_lines_seen : Nat
deriving DecidableEq, Repr

/-- A day bucket, as produced by `_blank_bucket` and mutated in place. -/
structure Bucket where
  count_sales_gross : Nat
  count_sales_net : Nat
  gross_sales : ℚ
  gross_tax : ℚ
  gross_cost : ℚ
  gross_profit : ℚ
  returns_sales : ℚ
  returns_tax : ℚ
  returns_cost : ℚ
  returns_profit : ℚ
  net_sales : ℚ
  net_tax : ℚ
  net_cost : ℚ
  net_profit : ℚ
deriving DecidableEq, Repr

def blankTotals : Totals :=
  ⟨0, 0, 0, 0, 0, 0, 0, 0, 0, 0, 0⟩

def blankBucket : Bucket :=
  ⟨0, 0, 0, 0, 0, 0, 0, 0, 0, 0, 0, 0, 0, 0⟩

/-- `_acc_bucket(bucket, kind, sales_amt, tax_amt, cost_amt)`; `isReturns`
selects the `"returns"` f-string keys, otherwise the `"gross"` ones. -/
def accBucket (b : Bucket) (isReturns : Bool) (price tax cost : ℚ) : Bucket :=
  if isReturns then
    { b with
      returns_sales := b.returns_sales + price
      returns_tax := b.returns_tax + tax
      returns_cost := b.returns_cost + cost
      returns_profit := b.returns_profit + (price - cost) }
  else
    { b with
      gross_sales := b.gross_sales + price
      gross_tax := b.gross_tax + tax
      gross_cost := b.gross_cost + cost
      gross_profit := b.gross_profit + (price - cost) }

/-- `_acc_totals(kind, sales_amt, tax_amt, cost_amt)`. -/
def accTotals (t : Totals) (isReturns : Bool) (price tax cost : ℚ) : Totals :=
  if isReturns then
    { t with
      returns_sales := t.returns_sales + price
      returns_tax := t.returns_tax + tax
      returns_cost := t.returns_cost + cost
      returns_profit := t.returns_profit + (price - cost) }
  else
    { t with
      gross_sales := t.gross_sales + price
      gross_tax := t.gross_tax + tax
      gross_cost := t.gross_cost + cost
      gross_profit := t.gross_profit + (price - cost) }

/-- The discount accumulation and diagnostic counters applied to `totals`
while processing one line item (`total_discount`, `return_lines_seen`,
`negative_lines_seen`). -/
def bumpSeen (t : Totals) (disc : ℚ) (isRet isNeg : Bool) : Totals :=
  let t0 := { t with total_discount := t.total_discount + disc }
  let t1 := if isRet then { t0 with return_lines_seen := t0.return_lines_seen + 1 } else t0
  if isNeg then { t1 with negative_lines_seen := t1.negative_lines_seen + 1 } else t1

/-- Per-sale loop state: the global totals, the sale's day bucket, and the
`had_positive` / `had_any` flags. -/
structure SaleFold where
  t : Totals
  b : Bucket
  had_positive : Bool
  had_any : Bool
deriving DecidableEq, Repr

/-- One iteration of the `for item in line_items` loop. -/
def lineStep (st : SaleFold) (item : LineItem) : SaleFold :=
  let qty := _money item.quantity
  let price := _money item.total_price
  let tax := _money item.total_tax
  let cost := _money item.total_cost
  let isRet := _is_true item.is_return
  let isNeg := decide (qty < 0) || decide (price < 0) || decide (tax < 0) || decide (cost < 0)
  let t0 := bumpSeen st.t (_money item.total_discount) isRet isNeg
  let isReturns := isRet || isNeg
  { t := accTotals t0 isReturns price tax cost
    b := accBucket st.b isReturns price tax cost
    had_positive := st.had_positive || !isReturns
    had_any := true }

/-- The sale-count updates after a sale's line items are processed. -/
def bumpCounts (b : Bucket) (hadPos hadAny : Bool) : Bucket :=
  let b1 := if hadPos then { b with count_sales_gross := b.count_sales_gross + 1 } else b
  if hadAny then { b1 with count_sales_net := b1.count_sales_net + 1 } else b1

/-- The day-bucket key of a sale:
`local_dt.strftime("%Y-%m-%d") if local_dt else "unknown"`. -/
def dayKeyOf (tzOff : Int) (s : Sale) : String :=
  match _to_local_day ((s.sale_date).getD ("")) tzOff with
  | some day => renderDate (civilFromDays day)
  | none => "unknown"

/-- The whole accumulation state of `_calculate_metrics`: the day-bucket
dictionary is modelled as a total function (`defaultdict(_blank_bucket)`)
plus its key list in insertion order. -/
structure AggState where
  totals : Totals
  keys : List String
  daily : String → Bucket
  lsNetSales : ℚ
  lsNetTax : ℚ

def initAgg : AggState :=
  ⟨blankTotals, [], fun _ => blankBucket, 0, 0⟩

/-- The `for item in line_items` loop of one sale, started from the
current global totals and the sale's day bucket with both flags clear. -/
def saleFoldResult (tzOff : Int) (st : AggState) (s : Sale) : SaleFold :=
  s.line_items.foldl lineStep ⟨st.totals, st.daily (dayKeyOf tzOff s), false, false⟩

/-- The sale's day bucket after its line items and the sale-count
updates. -/
def saleBucketResult (tzOff : Int) (st : AggState) (s : Sale) : Bucket :=
  bumpCounts (saleFoldResult tzOff st s).b
    (saleFoldResult tzOff st s).had_positive (saleFoldResult tzOff st s).had_any

/-- One iteration of the `for s in filtered_sales` loop. -/
def processSale (tzOff : Int) (st : AggState) (s : Sale) : AggState :=
  let day := dayKeyOf tzOff s
  { totals := (saleFoldResult tzOff st s).t
    keys := if day ∈ st.keys then st.keys else st.keys ++ [day]
    daily := fun k => if k = day then saleBucketResult tzOff st s else st.daily k
    lsNetSales := st.lsNetSales + _money s.total_price
    lsNetTax := st.lsNetTax + _money s.total_tax }

/-- The accumulation phase of `_calculate_metrics` over all filtered sales
(before finalization, rounding and sorting). -/
def calcRaw (sales : List Sale) (tzOff : Int) : AggState :=
  sales.foldl (processSale tzOff) initAgg

/-- `_finalize_bucket`: net metrics computed from gross and returns. -/
def finalizeBucket (b : Bucket) : Bucket :=
  let ns := b.gross_sales + b.returns_sales
  let nt := b.gross_tax + b.returns_tax
  let nc := b.gross_cost + b.returns_cost
  { b with net_sales := ns, net_tax := nt, net_cost := nc, net_profit := ns - nc }

/-- The state after the `for b in daily_by_date.values(): _finalize_bucket(b)`
loop.  In the function-plus-keys model the dictionary's buckets are exactly
the values at its keys; off-key values are (blank) defaults and finalizing
them is the identity, so finalization is applied pointwise. -/
def calcFinal (sales : List Sale) (tzOff : Int) : AggState :=
  let st := calcRaw sales tzOff
  { st with daily := fun k => finalizeBucket (st.daily k) }

/-! ### Rounding (`round(v, 2)` on Python floats, modelled exactly on ℚ
with round-half-to-even) -/

/-- Floor of a rational, computed on its normalized numerator/denominator. -/
def qfloor (q : ℚ) : ℤ :=
  q.num.fdiv (q.den : ℤ)

/-- Round-half-to-even to the nearest integer (Python's `round`). -/
def roundHalfEven (x : ℚ) : ℤ :=
  let f := qfloor x
  let r := x - (f : ℚ)
  if r < 1 / 2 then f
  else if 1 / 2 < r then f + 1
  else if f.emod 2 = 0 then f else f + 1

/-- `round(q, 2)`. -/
def round2 (q : ℚ) : ℚ :=
  (roundHalfEven (q * 100) : ℚ) / 100

/-- `_round_bucket`: round every float field to 2 decimals (counts are ints
and are untouched). -/
def roundBucket (b : Bucket) : Bucket :=
  { count_sales_gross := b.count_sales_gross
    count_sales_net := b.count_sales_net
    gross_sales := round2 b.gross_sales
    gross_tax := round2 b.gross_tax
    gross_cost := round2 b.gross_cost
    gross_profit := round2 b.gross_profit
    returns_sales := round2 b.returns_sales
    returns_tax := round2 b.returns_tax
    returns_cost := round2 b.returns_cost
    returns_profit := round2 b.returns_profit
    net_sales := round2 b.net_sales
    net_tax := round2 b.net_tax
    net_cost := round2 b.net_cost
    net_profit := round2 b.net_profit }

/-- The `for k in totals: round` loop (floats only; counters are ints). -/
def roundTotals (t : Totals) : Totals :=
  { gross_sales := round2 t.gross_sales
    returns_sales := round2 t.returns_sales
    gross_tax := round2 t.gross_tax
    returns_tax := round2 t.returns_tax
    gross_cost := round2 t.gross_cost
    returns_cost := round2 t.returns_cost
    gross_profit := round2 t.gross_profit
    returns_profit := round2 t.returns_profit
    total_discount := round2 t.total_discount
    return_lines_seen := t.return_lines_seen
    negative_lines_seen := t.negative_lines_seen }

/-- Insertion sort of the day buckets by their date key
(`sorted(..., key=lambda x: x[0])`; string comparison). -/
def insertByKey (p : String × Bucket) : List (String × Bucket) → List (String × Bucket)
  | [] => [p]
  | q :: qs => if p.1 < q.1 then p :: q :: qs else q :: insertByKey p qs

def sortByKey : List (String × Bucket) → List (String × Bucket)
  | [] => []
  | p :: ps => insertByKey p (sortByKey ps)

/-- `_calculate_metrics`: the 4-tuple the source actually returns
(`totals, daily_sorted, ls_net_sales_sum, ls_net_tax_sum` — the hourly
breakdown is commented out in the source body and absent from the return). -/
def _calculate_metrics (sales : List Sale) (tzOff : Int) :
    Totals × List (String × Bucket) × ℚ × ℚ :=
  let st := calcFinal sales tzOff
  (roundTotals st.totals,
   sortByKey (st.keys.map (fun k => (k, roundBucket (st.daily k)))),
   st.lsNetSales, st.lsNetTax)

/-! ## Report formatting (`SalesReportProcessor._format_totals`) -/

structure MoneyBlock where
  sales : ℚ
  tax : ℚ
  cost : ℚ
  profit : ℚ
deriving DecidableEq, Repr

structure FormattedTotals where
  gross : MoneyBlock
  returns : MoneyBlock
  net : MoneyBlock
  total_discount : ℚ
  return_lines_seen : Nat
  negative_lines_seen : Nat
deriving DecidableEq, Repr

def _format_totals (t : Totals) : FormattedTotals :=
  let totals_net : MoneyBlock :=
    { sales := round2 (t.gross_sales + t.returns_sales)
      tax := round2 (t.gross_tax + t.returns_tax)
      cost := round2 (t.gross_cost + t.returns_cost)
      profit := round2 ((t.gross_sales + t.returns_sales) - (t.gross_cost + t.returns_cost)) }
  { gross := ⟨t.gross_sales, t.gross_tax, t.gross_cost, t.gross_profit⟩
    returns := ⟨t.returns_sales, t.returns_tax, t.returns_cost, t.returns_profit⟩
    net := totals_net
    total_discount := t.total_discount
    return_lines_seen := t.return_lines_seen
    negative_lines_seen := t.negative_lines_seen }

/-! ## Paginated fetcher (`_paged_search_sales`) and report plumbing -/

/-- One scripted upstream response: HTTP status, the `Retry-After` header
(`none` = absent, `some none` = present but unparsable as an RFC1123 date,
`some (some d)` = parses to a date `d` seconds from now), and the decoded
`data` list. -/
structure PageResp where
  status : Nat
  retry_after : Option (Option Int)
  items : List Sale
deriving DecidableEq, Repr

/-- The backoff the source computes for a 429: `wait = 5`, overridden by
`max(1, parsed Retry-After delta)` when the header parses. -/
def waitOf (ra : Option (Option Int)) : Int :=
  match ra with
  | some (some d) => max 1 d
  | some none => 5
  | none => 5

/-- Externally visible actions of the fetch loop: a page request at a given
offset, and a `time.sleep`. -/
inductive FetchEv where
  | req (offset : Nat)
  | slept (secs : Int)
deriving DecidableEq, Repr

/-- The `for _ in range(max_pages)` loop.  `script i` is the response to
the i-th request issued.  Status 429 sleeps and retries without advancing
the offset; `raise_for_status()` turns any status ≥ 400 into an exception
(`Except.error status`); otherwise the page is consumed and the loop ends
when a short page arrives.  Exhausting `max_pages` falls out of the loop
and returns whatever was accumulated. -/
def pagedGo (script : Nat → PageResp) (pageSize : Nat) :
    Nat → Nat → Nat → List Sale → List Nat → List FetchEv →
    Except Nat (List Sale × List Nat) × List FetchEv
  | 0, _, _, acc, urls, evs => (Except.ok (acc, urls), evs)
  | fuel + 1, i, off, acc, urls, evs =>
    let r := script i
    if r.status = 429 then
      pagedGo script pageSize fuel (i + 1) off acc urls
        (evs ++ [FetchEv.req off, FetchEv.slept (waitOf r.retry_after)])
    else if 400 ≤ r.status then
      (Except.error r.status, evs ++ [FetchEv.req off])
    else
      let acc2 := acc ++ r.items
      let urls2 := urls ++ [off]
      if r.items.length < pageSize then
        (Except.ok (acc2, urls2), evs ++ [FetchEv.req off])
      else
        pagedGo script pageSize fuel (i + 1) (off + r.items.length) acc2 urls2
          (evs ++ [FetchEv.req off])

def _paged_search_sales (script : Nat → PageResp) (pageSize maxPages : Nat) :
    Except Nat (List Sale × List Nat) :=
  (pagedGo script pageSize maxPages 0 0 [] [] []).1

/-- Python exceptions that can cross `generate_report`'s `try`. -/
inductive PyErr where
  | valueError (msg : String)
  | httpError (status : Nat)
deriving DecidableEq, Repr

/-- `str(e)` for the modelled exceptions.  `requests.HTTPError`'s message
starts with the upstream status code (`"503 Server Error: …"`); the suffix
here abbreviates the rest of requests' message text. -/
def pyErrStr : PyErr → String
  | PyErr.valueError m => m
  | PyErr.httpError c => toString c ++ " Error: raise_for_status"

/-- `_AggregatedResponse`: the successful aggregation wrapper, always
constructed with `status_code=200`. -/
structure AggResp where
  status : Nat
  data : List Sale
  urls : List Nat
deriving DecidableEq, Repr

/-- `_fetch_sales_data`: dispatches on the period and runs the paginated
fetch (the period-specific UTC windows only change the upstream query
parameters, which the response script already fixes); an invalid period
raises `ValueError`. -/
def _fetch_sales_data (script : Nat → PageResp) (pageSize maxPages : Nat)
    (period : String) : Except PyErr AggResp :=
  if period = "daily" ∨ period = "weekly" ∨ period = "monthly" then
    match _paged_search_sales script pageSize maxPages with
    | Except.error code => Except.error (PyErr.httpError code)
    | Except.ok (items, urls) => Except.ok ⟨200, items, urls⟩
  else
    Except.error (PyErr.valueError ("Invalid period: " ++ period))

/-- A Python value as it sits in the tuple returned by
`_calculate_metrics`. -/
inductive PyVal where
  | vTotals (t : Totals)
  | vDaily (d : List (String × Bucket))
  | vRat (q : ℚ)
deriving DecidableEq, Repr

/-- The tuple `_calculate_metrics` returns at line 600 of the source:
`return totals, daily_sorted, ls_net_sales_sum, ls_net_tax_sum`
— four elements. -/
def calc_metrics_tuple (sales : List Sale) (tzOff : Int) : List PyVal :=
  let r := _calculate_metrics sales tzOff
  [PyVal.vTotals r.1, PyVal.vDaily r.2.1, PyVal.vRat r.2.2.1, PyVal.vRat r.2.2.2]

def unpackMsg : String :=
  "not enough values to unpack (expected 5, got " ++ toString (4 : Nat) ++ ")"

/-- Tuple unpacking into five targets, as written at line 431 of the
source: `totals, daily_sorted, hourly_sorted, ls_net_sales_sum,
ls_net_tax_sum = self._calculate_metrics(...)`.  A tuple of any other
length raises `ValueError`. -/
def unpack5 (vals : List PyVal) : Except PyErr (PyVal × PyVal × PyVal × PyVal × PyVal) :=
  match vals with
  | [a, b, c, d, e] => Except.ok (a, b, c, d, e)
  | _ =>
    Except.error (PyErr.valueError
      ("not enough values to unpack (expected 5, got " ++ toString vals.length ++ ")"))

/-- The report dictionary `_process_sales_data` would build if its unpack
succeeded; `unpacked` holds the five unpacked values. -/
structure ReportDict where
  raw_count : Nat
  unique_count : Nat
  filtered_count : Nat
  unpacked : PyVal × PyVal × PyVal × PyVal × PyVal
deriving DecidableEq, Repr

/-- `_process_sales_data`: dedup, filter, then the five-target unpack of
`_calculate_metrics`'s four-element result (which raises `ValueError`).
The on-disk dump of `data.json` and the debug print are side effects with
no bearing on the returned value and are not modelled. -/
def _process_sales_data (resp : AggResp) (tzOff : Int) : Except PyErr ReportDict :=
  let sales := resp.data
  let sales_unique := dedupById sales
  let filtered := _filter_sales sales_unique
  match unpack5 (calc_metrics_tuple filtered tzOff) with
  | Except.error e => Except.error e
  | Except.ok u =>
    Except.ok
      { raw_count := sales.length
        unique_count := sales_unique.length
        filtered_count := filtered.length
        unpacked := u }

/-- What `generate_report` hands back to its caller: either the report
dict or the `{"error": str(e), "status_code": …}` object. -/
inductive ReportOut where
  | report (r : ReportDict)
  | errObj (error : String) (status_code : Nat)
deriving DecidableEq, Repr

def statusCodeOf : ReportOut → Nat
  | ReportOut.report _ => 200
  | ReportOut.errObj _ c => c

/-- `SalesReportProcessor.generate_report`: fetch, check `status_code`,
process; every raised exception is caught by the top-level handler and
converted to `{"error": str(e), "status_code": 500}`. -/
def generate_report (script : Nat → PageResp) (pageSize maxPages : Nat)
    (period : String) (tzOff : Int) : ReportOut :=
  match _fetch_sales_data script pageSize maxPages period with
  | Except.error e => ReportOut.errObj (pyErrStr e) 500
  | Except.ok resp =>
    if resp.status ≠ 200 then
      ReportOut.errObj ("Failed to retrieve " ++ period ++ " sales data") resp.status
    else
      match _process_sales_data resp tzOff with
      | Except.error e => ReportOut.errObj (pyErrStr e) 500
      | Except.ok r => ReportOut.report r

/-! ## Time-window resolvers (`get_weekly_sales_report`,
`get_monthly_sales_report`), reduced to the local-midnight day numbers
they compute.  Local midnight of day `d` in a zone with UTC offset
`offMin` minutes is the UTC instant `d * 1440 - offMin` minutes. -/

/-- The weekly window of `get_weekly_sales_report` for a start date
`(y, m, d)`: `[start_local, start_local + (6 - weekday) + 1)` in local
days. -/
def get_weekly_window (y m d : Int) : Int × Int :=
  let startDays := daysFromCivil y m d
  let daysUntilSunday := 6 - pyWeekday startDays
  (startDays, startDays + daysUntilSunday + 1)

/-- The two UTC ISO-8601 boundary strings the weekly resolver serializes
(`astimezone(timezone.utc).isoformat().replace("+00:00", "Z")`). -/
def weeklyBoundsUtc (y m d offMin : Int) : String × String :=
  (isoZofUtcMin ((get_weekly_window y m d).1 * 1440 - offMin),
   isoZofUtcMin ((get_weekly_window y m d).2 * 1440 - offMin))

/-- The monthly window of `get_monthly_sales_report` for requested
`(y, m)` when "now" (in the reporting zone) is the civil date
`(nowY, nowM, nowD)`: first of the month to first of the next month,
overridden to tomorrow's midnight when the requested month is the current
one. -/
def get_monthly_window (y m nowY nowM nowD : Int) : Int × Int :=
  let startD := daysFromCivil y m 1
  let endD := if m = 12 then daysFromCivil (y + 1) 1 1 else daysFromCivil y (m + 1) 1
  let endD2 := if y = nowY ∧ m = nowM then daysFromCivil nowY nowM nowD + 1 else endD
  (startD, endD2)

/-! ## Helper lemmas on two-decimal rounding -/

/-- Values representable exactly at two decimals. -/
def IsCent (q : ℚ) : Prop :=
  ∃ n : ℤ, q = (n : ℚ) / 100

theorem qfloor_intCast (n : ℤ) : qfloor (n : ℚ) = n := by
  simp [qfloor, Rat.num_intCast, Rat.den_intCast, Int.fdiv_one]

theorem roundHalfEven_intCast (n : ℤ) : roundHalfEven (n : ℚ) = n := by
  unfold roundHalfEven
  rw [qfloor_intCast]
  norm_num

theorem round2_eq_self (q : ℚ) (h : IsCent q) : round2 q = q := by
  obtain ⟨n, rfl⟩ := h
  unfold round2
  rw [div_mul_cancel₀ (b := (100 : ℚ)) (a := (n : ℚ)) (by norm_num), roundHalfEven_intCast]

theorem round2_isCent (q : ℚ) : IsCent (round2 q) :=
  ⟨roundHalfEven (q * 100), rfl⟩

theorem IsCent.add {a b : ℚ} (ha : IsCent a) (hb : IsCent b) : IsCent (a + b) := by
  obtain ⟨m, rfl⟩ := ha
  obtain ⟨n, rfl⟩ := hb
  exact ⟨m + n, by push_cast; ring⟩

theorem IsCent.sub {a b : ℚ} (ha : IsCent a) (hb : IsCent b) : IsCent (a - b) := by
  obtain ⟨m, rfl⟩ := ha
  obtain ⟨n, rfl⟩ := hb
  exact ⟨m - n, by push_cast; ring⟩

/-! ## Claim C1 -/

/-- Claim C1, counterexample.  A single sale with one gross line of price
0.006 and one return line of price 0.006: in the rounded day bucket of the
report, `net_sales` is 0.01 while `gross_sales + returns_sales` is 0.02,
so the claimed identity fails in the final rounded 2-decimal output. -/
def cexLine1 : LineItem :=
  ⟨JVal.num 1, JVal.num (6 / 1000), JVal.num 0, JVal.num 0, JVal.num 0, JVal.bool false⟩

def cexLine2 : LineItem :=
  ⟨JVal.num 1, JVal.num (6 / 1000), JVal.num 0, JVal.num 0, JVal.num 0, JVal.bool true⟩

def cexSale : Sale :=
  ⟨some "X", none, none, none, JVal.num 0, JVal.num 0, [cexLine1, cexLine2]⟩

/-- Claim C1 is false as stated: in the report produced from `[cexSale]`
(which passes the sale filter), the rounded day bucket violates
`net_sales = gross_sales + returns_sales`. -/
theorem claim_C1_counterexample :
    ((_calculate_metrics (_filter_sales [cexSale]) 0).2.1.all
      (fun p => decide (p.2.net_sales = p.2.gross_sales + p.2.returns_sales))) = false ∧
    (_calculate_metrics (_filter_sales [cexSale]) 0).2.1.length = 1 := by
  constructor <;> with_unfolding_all decide

/-- Claim C1, amended: the identities `net_X = gross_X + returns_X` (for
sales, tax, cost) and `net_profit = net_sales - net_cost` hold by
construction in every day bucket of the finalized (pre-rounding) state and
in the final formatted global totals (whose fields are already 2-decimal
values, so the re-rounding in `_format_totals` is exact); they can fail in
the final rounded day buckets, where every field is rounded independently
(see the counterexample). -/
theorem claim_C1_amended (sales : List Sale) (tzOff : Int) (k : String) :
    (((calcFinal sales tzOff).daily k).net_sales
        = ((calcFinal sales tzOff).daily k).gross_sales
          + ((calcFinal sales tzOff).daily k).returns_sales
      ∧ ((calcFinal sales tzOff).daily k).net_tax
        = ((calcFinal sales tzOff).daily k).gross_tax
          + ((calcFinal sales tzOff).daily k).returns_tax
      ∧ ((calcFinal sales tzOff).daily k).net_cost
        = ((calcFinal sales tzOff).daily k).gross_cost
          + ((calcFinal sales tzOff).daily k).returns_cost
      ∧ ((calcFinal sales tzOff).daily k).net_profit
        = ((calcFinal sales tzOff).daily k).net_sales
          - ((calcFinal sales tzOff).daily k).net_cost) ∧
    ((_format_totals (_calculate_metrics sales tzOff).1).net.sales
        = (_format_totals (_calculate_metrics sales tzOff).1).gross.sales
          + (_format_totals (_calculate_metrics sales tzOff).1).returns.sales
      ∧ (_format_totals (_calculate_metrics sales tzOff).1).net.tax
        = (_format_totals (_calculate_metrics sales tzOff).1).gross.tax
          + (_format_totals (_calculate_metrics sales tzOff).1).returns.tax
      ∧ (_format_totals (_calculate_metrics sales tzOff).1).net.cost
        = (_format_totals (_calculate_metrics sales tzOff).1).gross.cost
          + (_format_totals (_calculate_metrics sales tzOff).1).returns.cost
      ∧ (_format_totals (_calculate_metrics sales tzOff).1).net.profit
        = (_format_totals (_calculate_metrics sales tzOff).1).net.sales
          - (_format_totals (_calculate_metrics sales tzOff).1).net.cost) := by
  constructor
  · simp [calcFinal, finalizeBucket]
  · have hcent : ∀ a b : ℚ, round2 (round2 a + round2 b) = round2 a + round2 b :=
      fun a b => round2_eq_self _ ((round2_isCent a).add (round2_isCent b))
    have hcents : ∀ a b c d : ℚ,
        round2 ((round2 a + round2 b) - (round2 c + round2 d))
          = (round2 a + round2 b) - (round2 c + round2 d) :=
      fun a b c d => round2_eq_self _
        (((round2_isCent a).add (round2_isCent b)).sub ((round2_isCent c).add (round2_isCent d)))
    refine ⟨?_, ?_, ?_, ?_⟩ <;>
      simp [_calculate_metrics, _format_totals, roundTotals, hcent, hcents]

/-! ## Claim C2 -/

/-- Claim C2: whenever the fetch step succeeds (and it always carries
status 200 when it does), `generate_report` returns the
`{"error": …, "status_code": 500}` object produced by the `ValueError`
from unpacking five targets out of `_calculate_metrics`'s four-element
return; a report object is never produced through this entry point. -/
theorem claim_C2 (script : Nat → PageResp) (pageSize maxPages : Nat)
    (period : String) (tzOff : Int) (resp : AggResp)
    (h : _fetch_sales_data script pageSize maxPages period = Except.ok resp) :
    resp.status = 200 ∧
    generate_report script pageSize maxPages period tzOff = ReportOut.errObj unpackMsg 500 := by
  have hproc : ∀ r : AggResp, ∀ tz : Int,
      _process_sales_data r tz = Except.error (PyErr.valueError unpackMsg) := fun _ _ => rfl
  have hs : resp.status = 200 := by
    unfold _fetch_sales_data at h
    split at h
    · split at h
      · exact absurd h (by simp)
      · rw [← (Except.ok.injEq _ _).mp h]
    · exact absurd h (by simp)
  refine ⟨hs, ?_⟩
  unfold generate_report
  rw [h]
  simp [hs, hproc, pyErrStr]

def okScript : Nat → PageResp := fun _ => ⟨200, none, []⟩

theorem claim_C2_witness :
    (⟨200, [], [0]⟩ : AggResp).status = 200 ∧
    generate_report okScript 10 10 "daily" 0 = ReportOut.errObj unpackMsg 500 :=
  claim_C2 okScript 10 10 "daily" 0 ⟨200, [], [0]⟩ (by with_unfolding_all rfl)

/-! ## Claim C4 -/

/-- Claim C4: the sale filter keeps a sale iff none of the three exclusion
rules fires (the source applies them in order with `continue`, but the
kept set is their conjunction), and a sale with status `"VOIDED"` is
excluded entirely: it contributes nothing to the filtered list nor to any
output of the aggregation engine. -/
theorem claim_C4 :
    (∀ s : Sale, saleKeep s = true ↔
      (¬(s.status = some "SAVED" ∨ s.status = some "VOIDED")
        ∧ ¬(s.status = some "ONACCOUNT_CLOSED" ∧ s.state ≠ some "closed")
        ∧ s.state ≠ some "voided")) ∧
    (∀ l1 l2 : List Sale, ∀ v : Sale, ∀ tzOff : Int, v.status = some "VOIDED" →
      _filter_sales (l1 ++ v :: l2) = _filter_sales (l1 ++ l2) ∧
      _calculate_metrics (_filter_sales (l1 ++ v :: l2)) tzOff
        = _calculate_metrics (_filter_sales (l1 ++ l2)) tzOff) := by
  constructor
  · intro s
    unfold saleKeep
    split_ifs with h1 h2 h3 <;> simp_all
  · intro l1 l2 v tzOff hv
    have hk : saleKeep v = false := by
      unfold saleKeep
      simp [hv]
    have hf : _filter_sales (l1 ++ v :: l2) = _filter_sales (l1 ++ l2) := by
      simp [_filter_sales, List.filter_append, List.filter_cons, hk]
    exact ⟨hf, by rw [hf]⟩

def voidedSale : Sale :=
  ⟨some "V", some "VOIDED", some "closed", none, JVal.num 10, JVal.num 1, []⟩

theorem claim_C4_witness :
    _filter_sales ([] ++ voidedSale :: []) = _filter_sales ([] ++ []) ∧
    _calculate_metrics (_filter_sales ([] ++ voidedSale :: [])) 0
      = _calculate_metrics (_filter_sales ([] ++ [])) 0 :=
  claim_C4.2 [] [] voidedSale 0 rfl

/-! ## Claim C5 -/

def lineA : LineItem :=
  ⟨JVal.num 1, JVal.num 100, JVal.num 8, JVal.num 60, JVal.num 0, JVal.bool false⟩

def lineB : LineItem :=
  ⟨JVal.num (-1), JVal.num (-50), JVal.num (-4), JVal.num (-30), JVal.num 0, JVal.bool true⟩

def saleA : Sale :=
  ⟨some "A", some "COMPLETED", some "closed", some "2025-08-08T12:00:00Z",
   JVal.num 108, JVal.num 8, [lineA]⟩

def saleB : Sale :=
  ⟨some "B", some "COMPLETED", some "closed", some "2025-08-08T15:00:00Z",
   JVal.num (-54), JVal.num (-4), [lineB]⟩

/-- Claim C5: the end-to-end scenario of the spec (one completed sale with
a single gross line of price 100, tax 8, cost 60, and one completed sale
with a single return line of price -50, tax -4, cost -30, on the same
local day) yields exactly the expected formatted
global totals and diagnostic counters. -/
theorem claim_C5 :
    _format_totals (_calculate_metrics (_filter_sales [saleA, saleB]) (-300)).1
      = { gross := ⟨100, 8, 60, 40⟩
          returns := ⟨-50, -4, -30, -20⟩
          net := ⟨50, 4, 30, 20⟩
          total_discount := 0
          return_lines_seen := 1
          negative_lines_seen := 1 } := by
  with_unfolding_all decide

/-! ## Claim C6 -/

/-- Claim C6: the weekly window starts at local midnight of the given date
and its exclusive end is the local midnight that closes the following
Sunday (Monday = 0 … Sunday = 6): the last day inside the window is the
unique Sunday within seven days on or after the start date, so the entire
Sunday is included; both boundaries are serialized as UTC ISO-8601 strings
via `isoZofUtcMin` after subtracting the zone offset. -/
theorem claim_C6 (y m d offMin : Int) :
    (get_weekly_window y m d).1 = daysFromCivil y m d ∧
    pyWeekday ((get_weekly_window y m d).2 - 1) = 6 ∧
    daysFromCivil y m d ≤ (get_weekly_window y m d).2 - 1 ∧
    (get_weekly_window y m d).2 - 1 < daysFromCivil y m d + 7 ∧
    (∀ x : Int, ((get_weekly_window y m d).1 ≤ x ∧ x < (get_weekly_window y m d).2) ↔
      (daysFromCivil y m d ≤ x ∧ x ≤ (get_weekly_window y m d).2 - 1)) ∧
    weeklyBoundsUtc y m d offMin
      = (isoZofUtcMin (daysFromCivil y m d * 1440 - offMin),
         isoZofUtcMin ((get_weekly_window y m d).2 * 1440 - offMin)) := by
  unfold weeklyBoundsUtc get_weekly_window pyWeekday
  generalize daysFromCivil y m d = s
  dsimp only
  refine ⟨rfl, ?_, ?_, ?_, fun x => ?_, rfl⟩ <;> omega

/-! ## Claim C7 -/

/-- Claim C7: the monthly window starts at the first of the requested
month; its end is the first of the next month, except that when the
requested (year, month) is the current one the end is clamped to
tomorrow's local midnight, so no day after "today" is inside the
window. -/
theorem claim_C7 (y m nowY nowM nowD : Int) :
    (get_monthly_window y m nowY nowM nowD).1 = daysFromCivil y m 1 ∧
    (¬(y = nowY ∧ m = nowM) →
      (get_monthly_window y m nowY nowM nowD).2
        = (if m = 12 then daysFromCivil (y + 1) 1 1 else daysFromCivil y (m + 1) 1)) ∧
    ((y = nowY ∧ m = nowM) →
      (get_monthly_window y m nowY nowM nowD).2 = daysFromCivil nowY nowM nowD + 1 ∧
      (∀ x : Int, x < (get_monthly_window y m nowY nowM nowD).2 ↔
        x ≤ daysFromCivil nowY nowM nowD)) := by
  unfold get_monthly_window
  dsimp only
  refine ⟨rfl, fun h => ?_, fun h => ?_⟩
  · rw [if_neg h]
  · rw [if_pos h]
    exact ⟨rfl, fun x => by omega⟩

theorem claim_C7_witness :
    (get_monthly_window 2025 10 2025 10 12).2 = daysFromCivil 2025 10 12 + 1 :=
  ((claim_C7 2025 10 2025 10 12).2.2 ⟨rfl, rfl⟩).1

/-! ## Claims C8 and C9 -/

theorem generate_report_fetch_err (script : Nat → PageResp) (pageSize maxPages : Nat)
    (tzOff : Int) (c : Nat) (period : String)
    (hp : period = "daily" ∨ period = "weekly" ∨ period = "monthly")
    (h : _paged_search_sales script pageSize maxPages = Except.error c) :
    generate_report script pageSize maxPages period tzOff
      = ReportOut.errObj (pyErrStr (PyErr.httpError c)) 500 := by
  unfold generate_report _fetch_sales_data
  rw [if_pos hp, h]

/-- Claim C8, counterexample.  With an upstream 503 on the first page, the
whole report aborts, but the error object carries `status_code = 500`; the
upstream code 503 appears only inside the error message, so the claim that
the surfaced error carries the upstream status code is false. -/
def errScript : Nat → PageResp := fun _ => ⟨503, none, []⟩

theorem claim_C8_counterexample :
    generate_report errScript 10 10 "daily" 0
      = ReportOut.errObj (pyErrStr (PyErr.httpError 503)) 500 ∧
    statusCodeOf (generate_report errScript 10 10 "daily" 0) ≠ 503 := by
  constructor
  · with_unfolding_all rfl
  · with_unfolding_all decide

/-- Claim C8, amended: any non-success, non-429 page response makes the
whole fetch fail (`raise_for_status`), the partial results are discarded
and no truncated report reaches the caller; but the error object's
`status_code` field is always 500 (the catch-all handler), the upstream
status code surviving only inside the error message string. -/
theorem claim_C8_amended (script : Nat → PageResp) (pageSize maxPages : Nat)
    (tzOff : Int) (c : Nat)
    (h : _paged_search_sales script pageSize maxPages = Except.error c) :
    generate_report script pageSize maxPages "daily" tzOff
      = ReportOut.errObj (pyErrStr (PyErr.httpError c)) 500 ∧
    generate_report script pageSize maxPages "weekly" tzOff
      = ReportOut.errObj (pyErrStr (PyErr.httpError c)) 500 ∧
    generate_report script pageSize maxPages "monthly" tzOff
      = ReportOut.errObj (pyErrStr (PyErr.httpError c)) 500 :=
  ⟨generate_report_fetch_err script pageSize maxPages tzOff c _ (Or.inl rfl) h,
   generate_report_fetch_err script pageSize maxPages tzOff c _ (Or.inr (Or.inl rfl)) h,
   generate_report_fetch_err script pageSize maxPages tzOff c _ (Or.inr (Or.inr rfl)) h⟩

theorem claim_C8_amended_witness :
    generate_report errScript 10 10 "daily" 0
      = ReportOut.errObj (pyErrStr (PyErr.httpError 503)) 500 ∧
    generate_report errScript 10 10 "weekly" 0
      = ReportOut.errObj (pyErrStr (PyErr.httpError 503)) 500 ∧
    generate_report errScript 10 10 "monthly" 0
      = ReportOut.errObj (pyErrStr (PyErr.httpError 503)) 500 :=
  claim_C8_amended errScript 10 10 0 503 (by with_unfolding_all rfl)

theorem pagedGo_error_status (script : Nat → PageResp) (pageSize : Nat) :
    ∀ fuel i off : Nat, ∀ acc : List Sale, ∀ urls : List Nat, ∀ evs : List FetchEv, ∀ c : Nat,
      (pagedGo script pageSize fuel i off acc urls evs).1 = Except.error c →
      400 ≤ c ∧ c ≠ 429 := by
  intro fuel
  induction fuel with
  | zero =>
    intro i off acc urls evs c h
    exact absurd h (by simp [pagedGo])
  | succ n ih =>
    intro i off acc urls evs c h
    simp only [pagedGo] at h
    by_cases h1 : (script i).status = 429
    · rw [if_pos h1] at h
      exact ih _ _ _ _ _ _ h
    · rw [if_neg h1] at h
      by_cases h2 : 400 ≤ (script i).status
      · rw [if_pos h2] at h
        simp only [Except.error.injEq] at h
        omega
      · rw [if_neg h2] at h
        by_cases h3 : (script i).items.length < pageSize
        · rw [if_pos h3] at h
          simp at h
        · rw [if_neg h3] at h
          exact ih _ _ _ _ _ _ h

/-- Claim C9, counterexample.  A permanently rate-limited upstream with a
page budget of 2: the budget is exhausted by 429 retries, yet the fetch
returns a successful empty result instead of escalating to an upstream
error, so the claimed escalation on budget exhaustion is false. -/
def rlScript : Nat → PageResp := fun _ => ⟨429, none, []⟩

theorem claim_C9_counterexample :
    _paged_search_sales rlScript 10 2 = Except.ok ([], []) := by
  with_unfolding_all rfl

/-- Claim C9, amended: on a 429 the fetcher sleeps for the parsed
Retry-After delta (at least 1 second) when the header parses, and for the
fixed 5-second fallback when it is absent or unparsable, then reissues the
request at the same offset without consuming the page; the rate-limit
condition is never surfaced to the caller at all — any error the fetch
raises has a non-429 status ≥ 400, and exhausting the page budget on
retries silently returns the partial (possibly empty) results as a
success rather than escalating. -/
theorem claim_C9_amended :
    (∀ dlt : Int, waitOf (some (some dlt)) = max 1 dlt) ∧
    waitOf none = 5 ∧
    waitOf (some none) = 5 ∧
    (∀ script : Nat → PageResp, ∀ pageSize fuel i off : Nat,
      ∀ acc : List Sale, ∀ urls : List Nat, ∀ evs : List FetchEv,
      (script i).status = 429 →
      pagedGo script pageSize (fuel + 1) i off acc urls evs
        = pagedGo script pageSize fuel (i + 1) off acc urls
            (evs ++ [FetchEv.req off, FetchEv.slept (waitOf (script i).retry_after)])) ∧
    (∀ script : Nat → PageResp, ∀ pageSize maxPages c : Nat,
      _paged_search_sales script pageSize maxPages = Except.error c → 400 ≤ c ∧ c ≠ 429) := by
  refine ⟨fun dlt => rfl, rfl, rfl, ?_, ?_⟩
  · intro script pageSize fuel i off acc urls evs h
    simp only [pagedGo]
    rw [if_pos h]
  · intro script pageSize maxPages c h
    exact pagedGo_error_status script pageSize maxPages 0 0 [] [] [] c h

theorem claim_C9_amended_witness :
    (pagedGo rlScript 10 1 0 0 [] [] []
      = pagedGo rlScript 10 0 1 0 [] []
          ([] ++ [FetchEv.req 0, FetchEv.slept (waitOf (rlScript 0).retry_after)])) ∧
    (400 ≤ 503 ∧ 503 ≠ 429) :=
  ⟨claim_C9_amended.2.2.2.1 rlScript 10 0 0 0 [] [] [] rfl,
   claim_C9_amended.2.2.2.2 errScript 10 10 503 (by with_unfolding_all rfl)⟩

/-! ## Claim C10 -/

/-- Claim C10: a missing amount field (`None`) and a non-numeric amount
string both coerce to 0 without raising (`_money` is total); a sale whose
timestamp is missing or unparsable gets the sentinel day-bucket key
`"unknown"`; every processed sale is aggregated under its day key (the
bucket dictionary gains exactly that key), and processing continues over
the remaining records. -/
theorem claim_C10 :
    _money JVal.null = 0 ∧
    (∀ s : String, parseFloat s = none → _money (JVal.str s) = 0) ∧
    (∀ sale : Sale, ∀ tzOff : Int,
      _to_local_day ((sale.sale_date).getD ("")) tzOff = none →
      dayKeyOf tzOff sale = "unknown") ∧
    (∀ tzOff : Int, ∀ st : AggState, ∀ sale : Sale,
      (processSale tzOff st sale).keys
        = (if dayKeyOf tzOff sale ∈ st.keys then st.keys
           else st.keys ++ [dayKeyOf tzOff sale])) ∧
    (∀ tzOff : Int, ∀ sale : Sale, ∀ rest : List Sale,
      calcRaw (sale :: rest) tzOff
        = rest.foldl (processSale tzOff) (processSale tzOff initAgg sale)) := by
  refine ⟨rfl, ?_, ?_, ?_, ?_⟩
  · intro s h
    simp [_money, h]
  · intro sale tzOff h
    simp [dayKeyOf, h]
  · intro tzOff st sale
    rfl
  · intro tzOff sale rest
    rfl

def badDateSale : Sale :=
  ⟨some "G", none, none, some "garbage", JVal.num 1, JVal.num 0,
   [⟨JVal.num 1, JVal.str "oops", JVal.null, JVal.num 2, JVal.num 0, JVal.null⟩]⟩

theorem claim_C10_witness :
    _money (JVal.str "abc") = 0 ∧
    dayKeyOf 0 badDateSale = "unknown" ∧
    (processSale 0 initAgg badDateSale).keys
      = (if dayKeyOf 0 badDateSale ∈ initAgg.keys then initAgg.keys
         else initAgg.keys ++ [dayKeyOf 0 badDateSale]) :=
  ⟨claim_C10.2.1 "abc" (by with_unfolding_all rfl),
   claim_C10.2.2.1 badDateSale 0 (by with_unfolding_all rfl),
   claim_C10.2.2.2.1 0 initAgg badDateSale⟩


/-! ## Claim C3: per-day bucket sums against the global totals

The eight gross/returns metrics are indexed uniformly so that one
induction covers them all. -/

def bucketMetric : Nat → Bucket → ℚ
  | 0 => Bucket.gross_sales
  | 1 => Bucket.gross_tax
  | 2 => Bucket.gross_cost
  | 3 => Bucket.gross_profit
  | 4 => Bucket.returns_sales
  | 5 => Bucket.returns_tax
  | 6 => Bucket.returns_cost
  | 7 => Bucket.returns_profit
  | _ => fun _ => 0

def totalsMetric : Nat → Totals → ℚ
  | 0 => Totals.gross_sales
  | 1 => Totals.gross_tax
  | 2 => Totals.gross_cost
  | 3 => Totals.gross_profit
  | 4 => Totals.returns_sales
  | 5 => Totals.returns_tax
  | 6 => Totals.returns_cost
  | 7 => Totals.returns_profit
  | _ => fun _ => 0

theorem bucketMetric_blank (j : Nat) : bucketMetric j blankBucket = 0 := by
  rcases j with _ | _ | _ | _ | _ | _ | _ | _ | j <;> rfl

theorem totalsMetric_blank (j : Nat) : totalsMetric j blankTotals = 0 := by
  rcases j with _ | _ | _ | _ | _ | _ | _ | _ | j <;> rfl

/-- One line item adds the same amount to the day bucket and to the global
totals, for each of the eight gross/returns metrics. -/
theorem lineStep_metric (j : Nat) (st : SaleFold) (item : LineItem) :
    totalsMetric j (lineStep st item).t + bucketMetric j st.b
      = bucketMetric j (lineStep st item).b + totalsMetric j st.t := by
  rcases j with _ | _ | _ | _ | _ | _ | _ | _ | j
  all_goals try rfl
  all_goals
    simp only [lineStep, accTotals, accBucket, bumpSeen, totalsMetric, bucketMetric]
  all_goals split_ifs <;> simp <;> ring

theorem bucketMetric_bumpCounts (j : Nat) (b : Bucket) (hp ha : Bool) :
    bucketMetric j (bumpCounts b hp ha) = bucketMetric j b := by
  rcases j with _ | _ | _ | _ | _ | _ | _ | _ | j
  all_goals try rfl
  all_goals simp only [bumpCounts, bucketMetric]
  all_goals split_ifs <;> rfl

theorem foldl_lineStep_metric (j : Nat) (items : List LineItem) :
    ∀ st : SaleFold,
      totalsMetric j (items.foldl lineStep st).t + bucketMetric j st.b
        = bucketMetric j (items.foldl lineStep st).b + totalsMetric j st.t := by
  induction items with
  | nil =>
    intro st
    simp only [List.foldl_nil]
    ring
  | cons a as ih =>
    intro st
    rw [List.foldl_cons]
    have h1 := lineStep_metric j st a
    have h2 := ih (lineStep st a)
    linarith

def sumBy (keys : List String) (f : String → ℚ) : ℚ :=
  (keys.map f).sum

theorem sumBy_congr (keys : List String) (f g : String → ℚ)
    (h : ∀ k ∈ keys, f k = g k) : sumBy keys f = sumBy keys g := by
  induction keys with
  | nil => rfl
  | cons a as ih =>
    simp only [sumBy, List.map_cons, List.sum_cons]
    rw [h a (by simp)]
    have := ih (fun k hk => h k (by simp [hk]))
    simp only [sumBy] at this
    rw [this]

theorem sumBy_append (l1 l2 : List String) (f : String → ℚ) :
    sumBy (l1 ++ l2) f = sumBy l1 f + sumBy l2 f := by
  simp [sumBy]

theorem sumBy_update (keys : List String) (f : String → ℚ) (day : String) (v : ℚ)
    (hnd : keys.Nodup) (hmem : day ∈ keys) :
    sumBy keys (fun k => if k = day then v else f k) = sumBy keys f - f day + v := by
  induction keys with
  | nil => simp at hmem
  | cons a as ih =>
    rw [List.nodup_cons] at hnd
    rcases List.mem_cons.mp hmem with h | h
    · have hcg : ∀ k ∈ as, (if k = day then v else f k) = f k := by
        intro k hk
        refine if_neg ?_
        rintro rfl
        exact hnd.1 (h ▸ hk)
      have hsum2 := sumBy_congr as (fun k => if k = day then v else f k) f hcg
      simp only [sumBy, List.map_cons, List.sum_cons] at hsum2 ⊢
      rw [← h, if_pos rfl, hsum2]
      ring
    · have hne : a ≠ day := by
        rintro rfl
        exact hnd.1 h
      simp only [sumBy, List.map_cons, List.sum_cons, if_neg hne]
      have := ih hnd.2 h
      simp only [sumBy] at this
      rw [this]
      ring

theorem processSale_totals (tzOff : Int) (st : AggState) (s : Sale) :
    (processSale tzOff st s).totals = (saleFoldResult tzOff st s).t := rfl

theorem processSale_keys (tzOff : Int) (st : AggState) (s : Sale) :
    (processSale tzOff st s).keys
      = if dayKeyOf tzOff s ∈ st.keys then st.keys
        else st.keys ++ [dayKeyOf tzOff s] := rfl

theorem processSale_daily (tzOff : Int) (st : AggState) (s : Sale) :
    (processSale tzOff st s).daily
      = fun k => if k = dayKeyOf tzOff s then saleBucketResult tzOff st s
                 else st.daily k := rfl

/-- The loop invariant of the aggregation: the bucket-key list is
duplicate-free, unvisited keys hold blank buckets, and for each of the
eight gross/returns metrics the sum over all day buckets equals the
corresponding global total. -/
def AggInv (st : AggState) : Prop :=
  st.keys.Nodup ∧
  (∀ k, k ∉ st.keys → st.daily k = blankBucket) ∧
  (∀ j : Nat, sumBy st.keys (fun k => bucketMetric j (st.daily k)) = totalsMetric j st.totals)

theorem initAgg_inv : AggInv initAgg := by
  refine ⟨List.nodup_nil, fun _ _ => rfl, fun j => ?_⟩
  simp [sumBy, initAgg, totalsMetric_blank]

theorem processSale_inv (tzOff : Int) (s : Sale) (st : AggState) (h : AggInv st) :
    AggInv (processSale tzOff st s) := by
  obtain ⟨hnd, hbl, hsum⟩ := h
  have hF : ∀ j : Nat,
      totalsMetric j (saleFoldResult tzOff st s).t
          + bucketMetric j (st.daily (dayKeyOf tzOff s))
        = bucketMetric j (saleFoldResult tzOff st s).b + totalsMetric j st.totals :=
    fun j => foldl_lineStep_metric j s.line_items
      ⟨st.totals, st.daily (dayKeyOf tzOff s), false, false⟩
  have hb2 : ∀ j : Nat,
      bucketMetric j (saleBucketResult tzOff st s)
        = bucketMetric j (saleFoldResult tzOff st s).b :=
    fun j => bucketMetric_bumpCounts j _ _ _
  refine ⟨?_, ?_, ?_⟩
  · rw [processSale_keys]
    by_cases hmem : dayKeyOf tzOff s ∈ st.keys
    · rw [if_pos hmem]
      exact hnd
    · rw [if_neg hmem]
      exact List.Nodup.append hnd (List.nodup_singleton _) (by simp [hmem])
  · intro k hk
    rw [processSale_keys] at hk
    rw [processSale_daily]
    dsimp only
    by_cases hmem : dayKeyOf tzOff s ∈ st.keys
    · rw [if_pos hmem] at hk
      rw [if_neg (by rintro rfl; exact hk hmem)]
      exact hbl k hk
    · rw [if_neg hmem] at hk
      simp only [List.mem_append, List.mem_singleton, not_or] at hk
      rw [if_neg hk.2]
      exact hbl k hk.1
  · intro j
    rw [processSale_keys, processSale_daily, processSale_totals]
    have hpush : (fun k => bucketMetric j
          (if k = dayKeyOf tzOff s then saleBucketResult tzOff st s else st.daily k))
        = fun k => if k = dayKeyOf tzOff s
            then bucketMetric j (saleBucketResult tzOff st s)
            else bucketMetric j (st.daily k) := by
      funext k
      split_ifs <;> rfl
    by_cases hmem : dayKeyOf tzOff s ∈ st.keys
    · rw [if_pos hmem]
      rw [show (fun k => bucketMetric j
            ((fun k' => if k' = dayKeyOf tzOff s then saleBucketResult tzOff st s
              else st.daily k') k))
          = fun k => bucketMetric j
              (if k = dayKeyOf tzOff s then saleBucketResult tzOff st s else st.daily k)
          from rfl, hpush,
        sumBy_update st.keys (fun k => bucketMetric j (st.daily k)) (dayKeyOf tzOff s)
          (bucketMetric j (saleBucketResult tzOff st s)) hnd hmem,
        hsum j, hb2 j]
      have hFj := hF j
      linarith
    · rw [if_neg hmem]
      rw [show (fun k => bucketMetric j
            ((fun k' => if k' = dayKeyOf tzOff s then saleBucketResult tzOff st s
              else st.daily k') k))
          = fun k => bucketMetric j
              (if k = dayKeyOf tzOff s then saleBucketResult tzOff st s else st.daily k)
          from rfl, hpush, sumBy_append]
      have hone : sumBy [dayKeyOf tzOff s]
          (fun k => if k = dayKeyOf tzOff s
            then bucketMetric j (saleBucketResult tzOff st s)
            else bucketMetric j (st.daily k))
          = bucketMetric j (saleBucketResult tzOff st s) := by
        simp [sumBy]
      have hrest : sumBy st.keys
          (fun k => if k = dayKeyOf tzOff s
            then bucketMetric j (saleBucketResult tzOff st s)
            else bucketMetric j (st.daily k))
          = sumBy st.keys (fun k => bucketMetric j (st.daily k)) :=
        sumBy_congr _ _ _ (fun k hk => if_neg (by rintro rfl; exact hmem hk))
      rw [hone, hrest, hsum j, hb2 j]
      have h0 : bucketMetric j (st.daily (dayKeyOf tzOff s)) = 0 := by
        rw [hbl _ hmem, bucketMetric_blank]
      have hFj := hF j
      rw [h0] at hFj
      linarith

theorem calcRaw_inv (sales : List Sale) (tzOff : Int) : AggInv (calcRaw sales tzOff) := by
  suffices H : ∀ st, AggInv st → AggInv (sales.foldl (processSale tzOff) st) from
    H initAgg initAgg_inv
  induction sales with
  | nil => exact fun st h => h
  | cons a as ih =>
    exact fun st h => ih (processSale tzOff st a) (processSale_inv tzOff a st h)

/-- Claim C3: for every filtered-sale list and reporting zone, each of the
eight gross/returns metrics summed over all day buckets equals the
corresponding global total, exactly and before the final 2-decimal
rounding (the rounded report derives both sides from these exact values);
in particular the sum of `gross_sales` over the day buckets equals the
global gross-sales total. -/
theorem claim_C3 (sales : List Sale) (tzOff : Int) :
    ((calcRaw sales tzOff).keys.map
        (fun k => ((calcRaw sales tzOff).daily k).gross_sales)).sum
      = (calcRaw sales tzOff).totals.gross_sales ∧
    ((calcRaw sales tzOff).keys.map
        (fun k => ((calcRaw sales tzOff).daily k).gross_tax)).sum
      = (calcRaw sales tzOff).totals.gross_tax ∧
    ((calcRaw sales tzOff).keys.map
        (fun k => ((calcRaw sales tzOff).daily k).gross_cost)).sum
      = (calcRaw sales tzOff).totals.gross_cost ∧
    ((calcRaw sales tzOff).keys.map
        (fun k => ((calcRaw sales tzOff).daily k).gross_profit)).sum
      = (calcRaw sales tzOff).totals.gross_profit ∧
    ((calcRaw sales tzOff).keys.map
        (fun k => ((calcRaw sales tzOff).daily k).returns_sales)).sum
      = (calcRaw sales tzOff).totals.returns_sales ∧
    ((calcRaw sales tzOff).keys.map
        (fun k => ((calcRaw sales tzOff).daily k).returns_tax)).sum
      = (calcRaw sales tzOff).totals.returns_tax ∧
    ((calcRaw sales tzOff).keys.map
        (fun k => ((calcRaw sales tzOff).daily k).returns_cost)).sum
      = (calcRaw sales tzOff).totals.returns_cost ∧
    ((calcRaw sales tzOff).keys.map
        (fun k => ((calcRaw sales tzOff).daily k).returns_profit)).sum
      = (calcRaw sales tzOff).totals.returns_profit := by
  have h := (calcRaw_inv sales tzOff).2.2
  exact ⟨h 0, h 1, h 2, h 3, h 4, h 5, h 6, h 7⟩
